import Mathlib

/-!
Verification of the podcast-ctl publishing pipeline: episode numbering
(main.rs update_episode_numbers), episode creation orchestration
(main.rs create_episode), feed synthesis (xml.rs generate_podcast_xml)
and streaming upload progress accounting (upload.rs upload_contents).
External collaborators (file system, S3, markdown renderer, date
formatter, mp3 probe) are passed in as explicit data or function
parameters; everything the repository itself computes is embedded
directly.
-/

namespace PodcastCtl

/-- Media metadata of an episode (config.rs EpisodeMedia: url, duration
seconds, byte length). -/
structure EpisodeMedia where
  url : String
  duration : Nat
  bytes : Nat
deriving DecidableEq

/-- Episode record (config.rs Episode, together with the season and
episode_number fields that main.rs constructs and xml.rs renders). The
released_at timestamp is carried as its formatted string form; date
parsing and formatting are external library calls. -/
structure Episode where
  id : String
  title : String
  description : String
  summary : String
  link : Option String
  released_at : String
  season : Nat
  episode_number : Nat
  image : String
  media : EpisodeMedia
  keywords : List String
deriving DecidableEq

/-- Channel owner (config.rs OwnerDetails). -/
structure OwnerDetails where
  name : String
  email : String
deriving DecidableEq

/-- Channel metadata (config.rs ChannelDetails). -/
structure ChannelDetails where
  title : String
  link : Option String
  description : String
  subtitle : String
  summary : String
  explicit : Bool
  image : String
  owner : OwnerDetails
  keywords : List String
deriving DecidableEq

/-- Upload target region (config.rs Region: name and endpoint). -/
structure Region where
  name : String
  endpoint : String
deriving DecidableEq

/-- Error kinds of main.rs CliError, one constructor per variant. -/
inductive CliErr where
  | ioErr
  | yamlErr
  | xmlErr
  | s3UploadErr
  | mp3Err
  | chronoErr
  | unknown
deriving DecidableEq

/-- One iteration of the scan loop in main.rs update_episode_numbers
(lines 180-188): the accumulator is the pair
(season_number, episode_number); when season_number is at most the
episode's season both trackers may advance, otherwise the episode is
ignored entirely. -/
def numberingStep (acc : Nat × Nat) (e : Episode) : Nat × Nat :=
  if acc.1 ≤ e.season then
    (e.season, if acc.2 ≤ e.episode_number then e.episode_number else acc.2)
  else
    acc

/-- main.rs update_episode_numbers (lines 174-194). The directory
enumeration performed by get_all_episodes is an external collaborator;
here the catalog it yields is passed in as a list. The new episode
receives the scanned season and the scanned episode number plus one. -/
def update_episode_numbers (episode : Episode) (catalog : List Episode) : Episode :=
  let acc := catalog.foldl numberingStep (0, 0)
  { episode with season := acc.1, episode_number := acc.2 + 1 }

/-- XML document tree produced by the quick-xml writer calls in xml.rs:
elements with name, attribute list and children, and escaped text
nodes. -/
inductive Xml where
  | elem (name : String) (attrs : List (String × String)) (children : List Xml)
  | text (s : String)

/-- Element name of a node; text nodes have none. -/
def Xml.name : Xml → String
  | .elem n _ _ => n
  | .text _ => ""

/-- Valid XML element name: nonempty and free of markup characters.
The quick-xml writer escapes text and attribute values, so structural
well-formedness of the document reduces to the element names being
valid. -/
def validName (s : String) : Bool :=
  !s.data.isEmpty &&
    !s.data.any (fun c => c == '<' || c == '>' || c == '&' || c == ' ' || c == '"' || c == '/')

mutual

/-- Structural well-formedness of an XML tree: every element name is a
valid XML name. -/
def Xml.wf : Xml → Bool
  | .text _ => true
  | .elem n _ kids => validName n && wfAll kids

/-- Well-formedness of a list of XML trees. -/
def wfAll : List Xml → Bool
  | [] => true
  | x :: xs => Xml.wf x && wfAll xs

end

/-- xml.rs add_text_element (lines 102-110): an element with a single
escaped text child. -/
def add_text_element (key value : String) : Xml :=
  .elem key [] [.text value]

/-- xml.rs XmlOutput::add_object for Episode (lines 118-181). The
markdown renderer md (comrak::markdown_to_html) and the RFC-822 date
formatter fmt are external libraries passed as functions. -/
def episodeItem (md fmt : String → String) (e : Episode) : Xml :=
  .elem "item" []
    ([add_text_element "title" e.title,
      add_text_element "itunes:subtitle" e.summary] ++
     (match e.link with
      | some l => [add_text_element "link" l]
      | none => []) ++
     [add_text_element "guid" e.id,
      .elem "enclosure"
        [("url", e.media.url), ("length", toString e.media.bytes), ("type", "audio/mpeg")] [],
      add_text_element "pubDate" (fmt e.released_at),
      add_text_element "description" (md e.description),
      add_text_element "itunes:summary" (md e.description),
      add_text_element "itunes:duration" (toString e.media.duration),
      add_text_element "itunes:season" (toString e.season),
      add_text_element "itunes:episode" (toString e.episode_number),
      .elem "itunes:image" [("href", e.image)] [],
      add_text_element "itunes:title" e.title])

/-- Channel-level elements written by xml.rs generate_podcast_xml
(lines 26-86), in source order; now is the formatted Utc::now()
timestamp, an external input. -/
def channelHeader (md : String → String) (now : String) (c : ChannelDetails) : List Xml :=
  [add_text_element "title" c.title,
   add_text_element "description" (md c.title)] ++
  (match c.link with
   | some l => [add_text_element "link" l]
   | none => []) ++
  [add_text_element "language" "en-us",
   add_text_element "copyright" "Copyright 2022",
   add_text_element "lastBuildDate" now,
   add_text_element "pubDate" now,
   add_text_element "docs" "http://blogs.law.harvard.edu/tech/rss",
   add_text_element "webMaster" c.owner.email,
   add_text_element "itunes:type" "Serial",
   add_text_element "itunes:author" c.owner.email,
   add_text_element "itunes:subtitle" c.subtitle,
   add_text_element "itunes:summary" (md c.summary),
   .elem "itunes:owner" []
     [add_text_element "itunes:name" c.owner.name,
      add_text_element "itunes:email" c.owner.email],
   add_text_element "itunes:explicit" (if c.explicit then "Yes" else "No"),
   .elem "itunes:image" [("href", c.image)] [],
   .elem "itunes:category" [("text", "Fiction")] []]

/-- xml.rs generate_podcast_xml (lines 7-100): the rss root element with
its namespace attributes, containing one channel element whose children
are the header elements followed by one item per episode in input
order. The returned value is the document tree whose serialization the
source writes out. -/
def generate_podcast_xml (md fmt : String → String) (now : String)
    (channel : ChannelDetails) (episodes : List Episode) : Xml :=
  .elem "rss"
    [("xmlns:itunes", "http://www.itunes.com/dtds/podcast-1.0.dtd"),
     ("xmlns:content", "http://purl.org/rss/1.0/modules/content/"),
     ("version", "2.0")]
    [.elem "channel" [] (channelHeader md now channel ++ episodes.map (episodeItem md fmt))]

/-- Children of the single channel element of a feed document. -/
def channelChildren : Xml → List Xml
  | .elem _ _ [.elem _ _ kids] => kids
  | _ => []

/-- The item elements of the feed's channel, in document order. -/
def channelItems (doc : Xml) : List Xml :=
  (channelChildren doc).filter (fun c => c.name == "item")

/-- First channel-level element with the given name. -/
def channelElemNamed (n : String) (doc : Xml) : Option Xml :=
  (channelChildren doc).find? (fun c => c.name == n)

/-- upload.rs upload_contents (lines 11-67). The byte source is the
finite list of chunks the framed reader yields; the progress handler is
invoked once per chunk with that chunk's byte count (lines 36-40, the
closure adds the amount to the progress bar), and the outcome of the
single S3 put_object call is the external putOk flag. Returns the list
of progress-callback amounts in order and, on success, the public URL
built as in line 66. -/
def upload_contents (chunks : List (List Nat)) (size : Nat) (region : Region)
    (bucket objectKey : String) (putOk : Bool) : List Nat × Except CliErr String :=
  let progressAmounts := chunks.map List.length
  if putOk then
    (progressAmounts, Except.ok ("https://" ++ bucket ++ "." ++ region.endpoint ++ "/" ++ objectKey))
  else
    (progressAmounts, Except.error CliErr.s3UploadErr)

/-- CLI arguments of the create-episode subcommand (main.rs NewEpisode). -/
structure NewEpisode where
  file : String
  date : String
  title : String
deriving DecidableEq

/-- External actions attempted by main.rs create_episode, in the order
the source performs them. -/
inductive Eff where
  | probeSize
  | upload
  | probeDuration
  | readCatalog
  | persist
deriving DecidableEq

/-- Results of the external collaborators used by create_episode:
date parsing (chrono), file open plus metadata (size), upload_contents,
the mp3 duration probe, the catalog enumeration, the fs::write outcome,
and the generated uuid. -/
structure CreateEffects where
  parsedDate : Option String
  fileSize : Option Nat
  uploadUrl : Option String
  mp3Duration : Option Nat
  catalog : Option (List Episode)
  persistOk : Bool
  uuid : String
deriving DecidableEq

/-- Outcome of create_episode: the trace of external actions attempted,
the returned result, and the episode record handed to fs::write (none
when the operation aborted before reaching the write). -/
structure CreateResult where
  events : List Eff
  result : Except CliErr Unit
  written : Option Episode

/-- The episode record literal built by main.rs create_episode
(lines 142-158), before numbering is applied. -/
def buildEpisode (channel : ChannelDetails) (data : NewEpisode)
    (uuid publishDate url : String) (durationSecs size : Nat) : Episode :=
  { id := uuid
    title := data.title
    description := "Fill me in"
    summary := "Fill me in"
    link := some "Fill me in, or delete me"
    released_at := publishDate
    season := 1
    episode_number := 0
    image := channel.image
    media := { url := url, duration := durationSecs, bytes := size }
    keywords := channel.keywords }

/-- main.rs create_episode (lines 107-172), step by step in source
order: parse the date, open the file and read its size, upload the
audio artifact, probe the mp3 for its duration, build the episode,
apply numbering against the enumerated catalog, and persist the record.
Each fallible external step aborts the whole operation with the
corresponding CliError variant. -/
def create_episode (channel : ChannelDetails) (data : NewEpisode)
    (eff : CreateEffects) : CreateResult :=
  match eff.parsedDate with
  | none => ⟨[], Except.error CliErr.chronoErr, none⟩
  | some publishDate =>
    match eff.fileSize with
    | none => ⟨[Eff.probeSize], Except.error CliErr.ioErr, none⟩
    | some size =>
      match eff.uploadUrl with
      | none => ⟨[Eff.probeSize, Eff.upload], Except.error CliErr.s3UploadErr, none⟩
      | some url =>
        match eff.mp3Duration with
        | none =>
          ⟨[Eff.probeSize, Eff.upload, Eff.probeDuration], Except.error CliErr.mp3Err, none⟩
        | some dur =>
          let ep0 := buildEpisode channel data eff.uuid publishDate url dur size
          match eff.catalog with
          | none =>
            ⟨[Eff.probeSize, Eff.upload, Eff.probeDuration, Eff.readCatalog],
             Except.error CliErr.ioErr, none⟩
          | some cat =>
            let ep := update_episode_numbers ep0 cat
            if eff.persistOk then
              ⟨[Eff.probeSize, Eff.upload, Eff.probeDuration, Eff.readCatalog, Eff.persist],
               Except.ok (), some ep⟩
            else
              ⟨[Eff.probeSize, Eff.upload, Eff.probeDuration, Eff.readCatalog, Eff.persist],
               Except.error CliErr.ioErr, some ep⟩

/-- Sample media record used in concrete instances. -/
def mediaEx : EpisodeMedia :=
  { url := "https://x", duration := 3, bytes := 10 }

/-- Catalog episode with season 1 and episode number 10. -/
def epS1E10 : Episode :=
  { id := "a", title := "a", description := "d", summary := "s", link := none,
    released_at := "2022-01-01", season := 1, episode_number := 10,
    image := "i", media := mediaEx, keywords := [] }

/-- Catalog episode with season 2 and episode number 5. -/
def epS2E5 : Episode :=
  { epS1E10 with id := "b", season := 2, episode_number := 5 }

/-- Fresh episode as constructed before numbering. -/
def epNew : Episode :=
  { epS1E10 with id := "n", season := 1, episode_number := 0 }

/-- Sample channel configuration. -/
def chanEx : ChannelDetails :=
  { title := "T", link := none, description := "D", subtitle := "st",
    summary := "sum", explicit := true, image := "img",
    owner := { name := "N", email := "e@x" }, keywords := ["k"] }

/-- Sample create-episode CLI input. -/
def newEpEx : NewEpisode :=
  { file := "f.mp3", date := "2022-01-01", title := "Ep" }

/-- Effects where every external step succeeds against an empty catalog. -/
def effOk : CreateEffects :=
  { parsedDate := some "2022-01-01", fileSize := some 10,
    uploadUrl := some "https://b.e/k", mp3Duration := some 3,
    catalog := some [], persistOk := true, uuid := "u" }

/-- Effects where the mp3 duration probe fails after a successful upload. -/
def effMp3Fails : CreateEffects :=
  { effOk with mp3Duration := none }

/-- Effects where the artifact upload fails. -/
def effUploadFails : CreateEffects :=
  { effOk with uploadUrl := none }

/-! Numbering scan lemmas. -/

/-- The season tracker advances exactly like a running maximum. -/
theorem numberingStep_fst (acc : Nat × Nat) (e : Episode) :
    (numberingStep acc e).1 = max acc.1 e.season := by
  by_cases h : acc.1 ≤ e.season <;> simp [numberingStep, h, Nat.max_def]

/-- The scan's first component is the fold of max over the seasons. -/
theorem scan_fst (l : List Episode) (acc : Nat × Nat) :
    (l.foldl numberingStep acc).1 = l.foldl (fun m e => max m e.season) acc.1 := by
  induction l generalizing acc with
  | nil => rfl
  | cons e t ih =>
    rw [List.foldl_cons, List.foldl_cons, ih, numberingStep_fst]

/-- Upper bound for the season fold. -/
theorem seasonFold_le (l : List Episode) (a S : Nat) (ha : a ≤ S)
    (h : ∀ e ∈ l, e.season ≤ S) :
    l.foldl (fun m e => max m e.season) a ≤ S := by
  induction l generalizing a with
  | nil => exact ha
  | cons e t ih =>
    rw [List.foldl_cons]
    exact ih _ (max_le ha (h e (List.mem_cons_self e t)))
      (fun x hx => h x (List.mem_cons_of_mem _ hx))

/-- The season fold never drops below its start value. -/
theorem le_seasonFold_init (l : List Episode) (a : Nat) :
    a ≤ l.foldl (fun m e => max m e.season) a := by
  induction l generalizing a with
  | nil => exact le_refl a
  | cons e t ih =>
    rw [List.foldl_cons]
    exact le_trans (le_max_left a e.season) (ih _)

/-- Every catalog season is a lower bound of the season fold. -/
theorem le_seasonFold_of_mem (l : List Episode) (a : Nat) (e : Episode)
    (he : e ∈ l) :
    e.season ≤ l.foldl (fun m e => max m e.season) a := by
  induction l generalizing a with
  | nil => cases he
  | cons x t ih =>
    rw [List.foldl_cons]
    rcases List.mem_cons.mp he with h | h
    · subst h
      exact le_trans (le_max_right a e.season) (le_seasonFold_init t _)
    · exact ih _ h

/-- The season fold is invariant under permutation of the catalog. -/
theorem seasonFold_perm {l₁ l₂ : List Episode} (h : l₁.Perm l₂) (a : Nat) :
    l₁.foldl (fun m e => max m e.season) a = l₂.foldl (fun m e => max m e.season) a := by
  induction h generalizing a with
  | nil => rfl
  | cons x _ ih => rw [List.foldl_cons, List.foldl_cons]; exact ih _
  | swap x y l => rw [List.foldl_cons, List.foldl_cons, List.foldl_cons, List.foldl_cons,
      sup_right_comm]
  | trans _ _ ih₁ ih₂ => exact (ih₁ a).trans (ih₂ a)

/-- One scan step never decreases the episode-number tracker. -/
theorem numberingStep_snd_mono (acc : Nat × Nat) (e : Episode) :
    acc.2 ≤ (numberingStep acc e).2 := by
  by_cases h1 : acc.1 ≤ e.season
  · by_cases h2 : acc.2 ≤ e.episode_number <;> simp [numberingStep, h1, h2]
  · simp [numberingStep, h1]

/-- The scan never decreases the episode-number tracker. -/
theorem scan_snd_mono (l : List Episode) (acc : Nat × Nat) :
    acc.2 ≤ (l.foldl numberingStep acc).2 := by
  induction l generalizing acc with
  | nil => exact le_refl _
  | cons e t ih =>
    rw [List.foldl_cons]
    exact le_trans (numberingStep_snd_mono acc e) (ih _)

/-- Upper bound for the scanned episode number. -/
theorem scan_snd_le (l : List Episode) (acc : Nat × Nat) (B : Nat)
    (ha : acc.2 ≤ B) (h : ∀ e ∈ l, e.episode_number ≤ B) :
    (l.foldl numberingStep acc).2 ≤ B := by
  induction l generalizing acc with
  | nil => exact ha
  | cons e t ih =>
    rw [List.foldl_cons]
    refine ih _ ?_ (fun x hx => h x (List.mem_cons_of_mem _ hx))
    have he := h e (List.mem_cons_self e t)
    by_cases h1 : acc.2 ≤ e.episode_number
    · by_cases h0 : acc.1 ≤ e.season <;> simp [numberingStep, h0, h1] <;> omega
    · by_cases h0 : acc.1 ≤ e.season <;> simp [numberingStep, h0, h1] <;> omega

/-- Lower bound for the scanned episode number: when every catalog
season is at most S and some catalog episode has season S and episode
number B, the scan reaches at least B. -/
theorem scan_snd_ge (l : List Episode) (acc : Nat × Nat) (S B : Nat)
    (haS : acc.1 ≤ S) (hS : ∀ e ∈ l, e.season ≤ S)
    (hW : ∃ e ∈ l, e.season = S ∧ e.episode_number = B) :
    B ≤ (l.foldl numberingStep acc).2 := by
  induction l generalizing acc with
  | nil => obtain ⟨e, he, _⟩ := hW; cases he
  | cons x t ih =>
    rw [List.foldl_cons]
    obtain ⟨e, he, hse, hee⟩ := hW
    rcases List.mem_cons.mp he with h | h
    · subst h
      refine le_trans ?_ (scan_snd_mono t _)
      have hcond : acc.1 ≤ e.season := hse ▸ haS
      have hstep : (numberingStep acc e).2 =
          if acc.2 ≤ e.episode_number then e.episode_number else acc.2 := by
        simp [numberingStep, hcond]
      rw [hstep, hee]
      split <;> omega
    · refine ih _ ?_ (fun y hy => hS y (List.mem_cons_of_mem _ hy)) ⟨e, h, hse, hee⟩
      rw [numberingStep_fst]
      exact max_le haS (hS x (List.mem_cons_self x t))

/-! Claim theorems for the numbering component. -/

/-- Claim C1 fails on the code: the catalog containing a season-1
episode numbered 10 and a season-2 episode numbered 5 has maximum
season 2, and within season 2 the maximum episode number is 5, yet
update_episode_numbers assigns episode number 11 rather than 6, because
the earlier season's episode number leaks into the tracker. -/
theorem c1_counterexample :
    (∀ e ∈ [epS1E10, epS2E5], e.season ≤ 2) ∧
    (∃ e ∈ [epS1E10, epS2E5], e.season = 2 ∧ e.episode_number = 5) ∧
    (∀ e ∈ [epS1E10, epS2E5], e.season = 2 → e.episode_number ≤ 5) ∧
    ¬ ((update_episode_numbers epNew [epS1E10, epS2E5]).season = 2 ∧
       (update_episode_numbers epNew [epS1E10, epS2E5]).episode_number = 6) := by
  decide

/-- Claim C1 amended: with maximum season 2 and maximum episode number
5 within season 2, update_episode_numbers assigns (2, 6) provided
additionally that every episode of the catalog, in any season, has
episode number at most 5. -/
theorem c1_amended_numbering (catalog : List Episode) (ep : Episode)
    (hS : ∀ e ∈ catalog, e.season ≤ 2)
    (hE : ∀ e ∈ catalog, e.episode_number ≤ 5)
    (hW : ∃ e ∈ catalog, e.season = 2 ∧ e.episode_number = 5) :
    (update_episode_numbers ep catalog).season = 2 ∧
    (update_episode_numbers ep catalog).episode_number = 6 := by
  obtain ⟨w, hw, hw2, hw5⟩ := hW
  constructor
  · show (catalog.foldl numberingStep (0, 0)).1 = 2
    rw [scan_fst]
    exact le_antisymm (seasonFold_le _ _ _ (by omega) hS)
      (hw2 ▸ le_seasonFold_of_mem _ _ _ hw)
  · show (catalog.foldl numberingStep (0, 0)).2 + 1 = 6
    have h5 : (catalog.foldl numberingStep (0, 0)).2 = 5 :=
      le_antisymm (scan_snd_le _ _ _ (by omega) hE)
        (scan_snd_ge _ _ 2 5 (by omega) hS ⟨w, hw, hw2, hw5⟩)
    omega

/-- Claim C1 amended, instantiated: a catalog holding only the
season-2 episode numbered 5 receives (2, 6). -/
theorem c1_amended_numbering_witness :
    (update_episode_numbers epNew [epS2E5]).season = 2 ∧
    (update_episode_numbers epNew [epS2E5]).episode_number = 6 :=
  c1_amended_numbering [epS2E5] epNew (by decide) (by decide)
    ⟨epS2E5, by decide, by decide, by decide⟩

/-- Claim C2 fails on the code: swapping the two catalog episodes is a
permutation, yet the assigned episode number changes (11 against 6),
so update_episode_numbers is not order-independent. -/
theorem c2_counterexample :
    List.Perm [epS1E10, epS2E5] [epS2E5, epS1E10] ∧
    (update_episode_numbers epNew [epS1E10, epS2E5]).episode_number ≠
      (update_episode_numbers epNew [epS2E5, epS1E10]).episode_number := by
  refine ⟨List.Perm.swap epS2E5 epS1E10 [], by decide⟩

/-- Claim C2 amended: only the season component of the assignment is
order-independent; permuting the catalog never changes the assigned
season (the episode-number component does depend on the order). -/
theorem c2_amended_season_perm (ep : Episode) {l₁ l₂ : List Episode}
    (h : l₁.Perm l₂) :
    (update_episode_numbers ep l₁).season = (update_episode_numbers ep l₂).season := by
  show (l₁.foldl numberingStep (0, 0)).1 = (l₂.foldl numberingStep (0, 0)).1
  rw [scan_fst, scan_fst]
  exact seasonFold_perm h 0

/-- Claim C2 amended, instantiated at the swapped two-episode catalog. -/
theorem c2_amended_season_perm_witness :
    List.Perm [epS1E10, epS2E5] [epS2E5, epS1E10] ∧
    (update_episode_numbers epNew [epS1E10, epS2E5]).season =
      (update_episode_numbers epNew [epS2E5, epS1E10]).season :=
  ⟨List.Perm.swap epS2E5 epS1E10 [],
    c2_amended_season_perm epNew (List.Perm.swap epS2E5 epS1E10 [])⟩

/-- Claim C4 fails on the code: for the empty catalog the assigned
season is 0, not at least 1. -/
theorem c4_counterexample :
    ¬ (1 ≤ (update_episode_numbers epNew []).season) := by
  decide

/-- Claim C4 amended: the assigned episode number is always at least 1,
and the assigned season is at least 1 whenever some catalog episode has
season at least 1 (the empty catalog gets season 0). -/
theorem c4_amended_invariant (catalog : List Episode) (ep : Episode) :
    1 ≤ (update_episode_numbers ep catalog).episode_number ∧
    ((∃ e ∈ catalog, 1 ≤ e.season) →
      1 ≤ (update_episode_numbers ep catalog).season) := by
  constructor
  · show 1 ≤ (catalog.foldl numberingStep (0, 0)).2 + 1
    omega
  · rintro ⟨e, he, h1⟩
    show 1 ≤ (catalog.foldl numberingStep (0, 0)).1
    rw [scan_fst]
    exact le_trans h1 (le_seasonFold_of_mem _ _ _ he)

/-- Claim C4 amended, instantiated at a singleton season-2 catalog. -/
theorem c4_amended_invariant_witness :
    (∃ e ∈ [epS2E5], 1 ≤ e.season) ∧
    1 ≤ (update_episode_numbers epNew [epS2E5]).episode_number ∧
    1 ≤ (update_episode_numbers epNew [epS2E5]).season :=
  ⟨⟨epS2E5, by decide, by decide⟩,
    (c4_amended_invariant [epS2E5] epNew).1,
    (c4_amended_invariant [epS2E5] epNew).2 ⟨epS2E5, by decide, by decide⟩⟩

/-- Claim C5: for the empty catalog, update_episode_numbers assigns
season 0 and episode number 1. -/
theorem c5_empty_catalog (ep : Episode) :
    (update_episode_numbers ep []).season = 0 ∧
    (update_episode_numbers ep []).episode_number = 1 :=
  ⟨rfl, rfl⟩

/-! Claim theorems for create_episode and upload_contents. -/

/-- Claim C3 fails on the code: with every earlier step succeeding and
the mp3 duration probe failing, create_episode has already attempted
the upload (the upload happens at main.rs line 126, the duration probe
only at line 136), so a probe failure does not prevent the upload. -/
theorem c3_counterexample :
    effMp3Fails.mp3Duration = none ∧
    Eff.upload ∈ (create_episode chanEx newEpEx effMp3Fails).events ∧
    (create_episode chanEx newEpEx effMp3Fails).result = Except.error CliErr.mp3Err := by
  refine ⟨rfl, by decide, rfl⟩

/-- Claim C3 amended: the size probe precedes the upload, but the
duration probe runs only after the upload; when the duration probe
fails the operation aborts with the mp3 error and writes no record,
the upload having already been attempted. -/
theorem c3_amended_order (channel : ChannelDetails) (data : NewEpisode)
    (eff : CreateEffects)
    (h1 : eff.parsedDate.isSome = true) (h2 : eff.fileSize.isSome = true)
    (h3 : eff.uploadUrl.isSome = true) (h4 : eff.mp3Duration = none) :
    (create_episode channel data eff).events = [Eff.probeSize, Eff.upload, Eff.probeDuration] ∧
    (create_episode channel data eff).result = Except.error CliErr.mp3Err ∧
    (create_episode channel data eff).written = none := by
  obtain ⟨d, hd⟩ := Option.isSome_iff_exists.mp h1
  obtain ⟨s, hs⟩ := Option.isSome_iff_exists.mp h2
  obtain ⟨u, hu⟩ := Option.isSome_iff_exists.mp h3
  simp [create_episode, hd, hs, hu, h4]

/-- Claim C3 amended, instantiated at the effects where only the mp3
probe fails. -/
theorem c3_amended_order_witness :
    (create_episode chanEx newEpEx effMp3Fails).events =
      [Eff.probeSize, Eff.upload, Eff.probeDuration] ∧
    (create_episode chanEx newEpEx effMp3Fails).result = Except.error CliErr.mp3Err ∧
    (create_episode chanEx newEpEx effMp3Fails).written = none :=
  c3_amended_order chanEx newEpEx effMp3Fails rfl rfl rfl rfl

/-- Claim C6: when the artifact upload fails, create_episode aborts
with the upload error; the catalog is never enumerated for numbering,
no episode file write is attempted, and no record is persisted. -/
theorem c6_upload_abort (channel : ChannelDetails) (data : NewEpisode)
    (eff : CreateEffects)
    (h1 : eff.parsedDate.isSome = true) (h2 : eff.fileSize.isSome = true)
    (h3 : eff.uploadUrl = none) :
    (create_episode channel data eff).result = Except.error CliErr.s3UploadErr ∧
    (create_episode channel data eff).written = none ∧
    Eff.readCatalog ∉ (create_episode channel data eff).events ∧
    Eff.persist ∉ (create_episode channel data eff).events := by
  obtain ⟨d, hd⟩ := Option.isSome_iff_exists.mp h1
  obtain ⟨s, hs⟩ := Option.isSome_iff_exists.mp h2
  simp [create_episode, hd, hs, h3]

/-- Claim C6, instantiated at the effects where only the upload fails. -/
theorem c6_upload_abort_witness :
    (create_episode chanEx newEpEx effUploadFails).result = Except.error CliErr.s3UploadErr ∧
    (create_episode chanEx newEpEx effUploadFails).written = none ∧
    Eff.readCatalog ∉ (create_episode chanEx newEpEx effUploadFails).events ∧
    Eff.persist ∉ (create_episode chanEx newEpEx effUploadFails).events :=
  c6_upload_abort chanEx newEpEx effUploadFails rfl rfl rfl

/-- Claim C10: every episode record that create_episode hands to the
episode-file write has the fixed placeholder description, summary and
link, copies image and keywords from the channel configuration, and
takes its title from the CLI input. -/
theorem c10_placeholder_fields (channel : ChannelDetails) (data : NewEpisode)
    (eff : CreateEffects) (ep : Episode)
    (h : (create_episode channel data eff).written = some ep) :
    ep.description = "Fill me in" ∧
    ep.summary = "Fill me in" ∧
    ep.link = some "Fill me in, or delete me" ∧
    ep.image = channel.image ∧
    ep.keywords = channel.keywords ∧
    ep.title = data.title := by
  rcases eff with ⟨pd, fs, uu, md, cat, pok, uid⟩
  rcases pd with _ | d <;> rcases fs with _ | s <;> rcases uu with _ | u <;>
    rcases md with _ | dur <;> rcases cat with _ | c <;>
    simp_all [create_episode, update_episode_numbers, buildEpisode] <;>
    rcases pok <;> simp_all <;> subst h <;> simp

/-- Claim C10, instantiated at the all-successful effects. -/
theorem c10_placeholder_fields_witness :
    (update_episode_numbers
        (buildEpisode chanEx newEpEx "u" "2022-01-01" "https://b.e/k" 3 10) []).description
      = "Fill me in" ∧
    (update_episode_numbers
        (buildEpisode chanEx newEpEx "u" "2022-01-01" "https://b.e/k" 3 10) []).summary
      = "Fill me in" ∧
    (update_episode_numbers
        (buildEpisode chanEx newEpEx "u" "2022-01-01" "https://b.e/k" 3 10) []).link
      = some "Fill me in, or delete me" ∧
    (update_episode_numbers
        (buildEpisode chanEx newEpEx "u" "2022-01-01" "https://b.e/k" 3 10) []).image
      = chanEx.image ∧
    (update_episode_numbers
        (buildEpisode chanEx newEpEx "u" "2022-01-01" "https://b.e/k" 3 10) []).keywords
      = chanEx.keywords ∧
    (update_episode_numbers
        (buildEpisode chanEx newEpEx "u" "2022-01-01" "https://b.e/k" 3 10) []).title
      = newEpEx.title :=
  c10_placeholder_fields chanEx newEpEx effOk _ rfl

/-- Claim C9: for a successful upload whose source chunks total the
declared length, the amounts passed to the progress callback across all
its invocations sum to exactly that length. -/
theorem c9_progress_sum (chunks : List (List Nat)) (region : Region)
    (bucket objectKey : String) (L : Nat)
    (h : (chunks.map List.length).sum = L) :
    ((upload_contents chunks L region bucket objectKey true).1).sum = L ∧
    ∃ url, (upload_contents chunks L region bucket objectKey true).2 = Except.ok url := by
  refine ⟨by simpa [upload_contents] using h, ?_⟩
  exact ⟨_, rfl⟩

/-- Claim C9, instantiated at a three-byte source read in two chunks. -/
theorem c9_progress_sum_witness :
    ((upload_contents [[7, 8], [9]] 3 ⟨"r", "e"⟩ "b" "k" true).1).sum = 3 ∧
    ∃ url, (upload_contents [[7, 8], [9]] 3 ⟨"r", "e"⟩ "b" "k" true).2 = Except.ok url :=
  c9_progress_sum [[7, 8], [9]] ⟨"r", "e"⟩ "b" "k" 3 (by decide)

/-! Feed synthesis lemmas and claims. -/

/-- Unfolding lemma: an element is well-formed when its name is valid
and its children are. -/
theorem Xml.wf_elem (n : String) (a : List (String × String)) (k : List Xml) :
    Xml.wf (.elem n a k) = (validName n && wfAll k) := by
  simp [Xml.wf]

/-- Unfolding lemma: a text node is always well-formed. -/
theorem Xml.wf_text (s : String) : Xml.wf (.text s) = true := by
  simp [Xml.wf]

/-- Unfolding lemma for the empty list of nodes. -/
theorem wfAll_nil : wfAll [] = true := by
  simp [wfAll]

/-- Unfolding lemma for a nonempty list of nodes. -/
theorem wfAll_cons (x : Xml) (xs : List Xml) :
    wfAll (x :: xs) = (Xml.wf x && wfAll xs) := by
  simp [wfAll]

/-- Well-formedness distributes over list append. -/
theorem wfAll_append (l₁ l₂ : List Xml) :
    wfAll (l₁ ++ l₂) = (wfAll l₁ && wfAll l₂) := by
  induction l₁ with
  | nil => simp [wfAll]
  | cons x xs ih => simp [wfAll, ih, Bool.and_assoc]

/-- A text element is well-formed exactly when its name is valid. -/
theorem add_text_element_wf (k v : String) :
    Xml.wf (add_text_element k v) = validName k := by
  simp [add_text_element, Xml.wf, wfAll]

/-- Every rendered episode item is well-formed. -/
theorem episodeItem_wf (md fmt : String → String) (e : Episode) :
    Xml.wf (episodeItem md fmt e) = true := by
  rcases h : e.link with _ | l <;>
    simp [episodeItem, h, Xml.wf, wfAll, wfAll_append, add_text_element] <;> decide

/-- The rendered items of a catalog are all well-formed. -/
theorem wfAll_items (md fmt : String → String) (l : List Episode) :
    wfAll (l.map (episodeItem md fmt)) = true := by
  induction l with
  | nil => rfl
  | cons e t ih => simp [wfAll, episodeItem_wf, ih]

/-- The channel header elements are all well-formed. -/
theorem channelHeader_wf (md : String → String) (now : String) (c : ChannelDetails) :
    wfAll (channelHeader md now c) = true := by
  rcases h : c.link with _ | l <;>
    simp [channelHeader, h, Xml.wf, wfAll, wfAll_append, add_text_element] <;> decide

/-- The generated feed document is structurally well-formed. -/
theorem generate_podcast_xml_wf (md fmt : String → String) (now : String)
    (channel : ChannelDetails) (episodes : List Episode) :
    Xml.wf (generate_podcast_xml md fmt now channel episodes) = true := by
  simp only [generate_podcast_xml, Xml.wf_elem, wfAll_cons, wfAll_nil, wfAll_append,
    channelHeader_wf, wfAll_items, Bool.and_true, Bool.true_and]
  decide

/-- No channel header element is named item. -/
theorem channelHeader_filter_item (md : String → String) (now : String)
    (c : ChannelDetails) :
    (channelHeader md now c).filter (fun x => x.name == "item") = [] := by
  rcases h : c.link with _ | l <;>
    simp [channelHeader, h, add_text_element, Xml.name, List.filter]

/-- Filtering rendered items for the item name keeps all of them. -/
theorem items_filter_self (md fmt : String → String) (l : List Episode) :
    (l.map (episodeItem md fmt)).filter (fun x => x.name == "item")
      = l.map (episodeItem md fmt) := by
  induction l with
  | nil => rfl
  | cons e t ih => simp [episodeItem, Xml.name, List.filter, ih]

/-- Claim C7: the generated feed is a structurally well-formed XML
document whose channel contains exactly one item element per input
episode, in exactly the order the episodes were supplied. -/
theorem c7_feed_items (md fmt : String → String) (now : String)
    (channel : ChannelDetails) (episodes : List Episode) :
    Xml.wf (generate_podcast_xml md fmt now channel episodes) = true ∧
    channelItems (generate_podcast_xml md fmt now channel episodes)
      = episodes.map (episodeItem md fmt) ∧
    (channelItems (generate_podcast_xml md fmt now channel episodes)).length
      = episodes.length := by
  have hitems : channelItems (generate_podcast_xml md fmt now channel episodes)
      = episodes.map (episodeItem md fmt) := by
    show (channelHeader md now channel ++ episodes.map (episodeItem md fmt)).filter
        (fun x => x.name == "item") = episodes.map (episodeItem md fmt)
    rw [List.filter_append, channelHeader_filter_item, items_filter_self, List.nil_append]
  exact ⟨generate_podcast_xml_wf md fmt now channel episodes, hitems,
    by rw [hitems, List.length_map]⟩

/-- Claim C8: the channel-level description element of the feed holds
the markdown-to-HTML rendering of the channel title, and changing the
channel's description field leaves that element unchanged. -/
theorem c8_description_from_title (md fmt : String → String) (now : String)
    (channel : ChannelDetails) (episodes : List Episode) (d : String) :
    channelElemNamed "description" (generate_podcast_xml md fmt now channel episodes)
      = some (add_text_element "description" (md channel.title)) ∧
    channelElemNamed "description"
        (generate_podcast_xml md fmt now { channel with description := d } episodes)
      = channelElemNamed "description"
          (generate_podcast_xml md fmt now channel episodes) :=
  ⟨rfl, rfl⟩

end PodcastCtl
